import Mathlib

/-!
Shallow embedding of `prover/proof_submitter/evidence/builder.go` from the
taiko-client repository, together with theorems about its evidence assembly
and tier-encoding behaviour.

Collaborators outside this core (the RPC client, the anchor-transaction
validator, the degree-to-circuit mapping of the proof producer) are modelled
as oracle functions gathered in an `Env` record: each call site of the Go
code consults the corresponding oracle.  Go's `(value, error)` pair returns
of the two builder methods are modelled literally as
`Option BlockEvidence × Option Err`, mirroring the code's `return nil, err`
and `return evidence, nil` statements, so that mutual exclusivity of the
two components is a fact to prove, not a fact of the encoding.
-/

namespace Evidence

/-- A 32-byte value (Go `[32]byte` / `common.Hash`), modelled as a list of
byte values. -/
abbrev Bytes32 := List Nat

/-- The all-zero 32-byte value: Go's zero value for `[32]byte`. -/
def zeroBytes32 : Bytes32 := List.replicate 32 0

/-- An L2 transaction, opaque to this core. -/
abbrev Tx := Nat

/-- An anchor-transaction receipt, opaque to this core. -/
abbrev Receipt := Nat

/-- An L2 block as consumed by builder.go: only its transaction list is
inspected (`block.Transactions()`). -/
structure Block where
  Transactions : List Tx
  deriving Repr, DecidableEq

/-- An L2 block header as consumed by builder.go: its parent hash and its
hash (`header.Hash()`, a cryptographic digest computed outside this core,
modelled as a field). -/
structure Header where
  ParentHash : Bytes32
  HeaderHash : Bytes32
  deriving Repr, DecidableEq

/-- The call sites at which builder.go wraps a collaborator error with
`fmt.Errorf` context before returning it. -/
inductive WrapKind where
  | blockLookup (headerHash : Bytes32)
  | invalidAnchor
  | anchorReceipt
  | storageRoot
  deriving Repr, DecidableEq

/-- Go error values as observed by builder.go: opaque collaborator errors
(identified by a code), the malformed-block error builder.go creates itself
for a block with no transactions, and errors wrapped with context. -/
inductive Err where
  | external (code : Nat)
  | malformedBlock (blockID : Nat)
  | wrap (k : WrapKind) (e : Err)
  deriving Repr, DecidableEq

/-- The hash options bundle `proofWithHeader.Opts`: the four hash fields
embedded into the evidence. -/
structure ProofRequestOptions where
  MetaHash : Bytes32
  ParentHash : Bytes32
  BlockHash : Bytes32
  SignalRoot : Bytes32
  deriving Repr, DecidableEq

/-- The input of `ForSubmission`: `proofProducer.ProofWithHeader`, with the
fields builder.go reads. -/
structure ProofWithHeader where
  BlockID : Nat
  Header : Header
  Proof : List Nat
  Degree : Nat
  Tier : Nat
  Opts : ProofRequestOptions
  deriving Repr, DecidableEq

/-- The input event of `ForContest`: `bindings.TaikoL1ClientTransitionProved`,
with the fields builder.go reads. -/
structure TaikoL1ClientTransitionProved where
  BlockId : Nat
  ParentHash : Bytes32
  Tier : Nat
  deriving Repr, DecidableEq

/-- The L1 block record returned by `TaikoL1.GetBlock`; builder.go reads only
its `MetaHash`. -/
structure L1BlockInfo where
  MetaHash : Bytes32
  deriving Repr, DecidableEq

/-- The evidence record `encoding.BlockEvidence` as populated by builder.go. -/
structure BlockEvidence where
  MetaHash : Bytes32
  ParentHash : Bytes32
  BlockHash : Bytes32
  SignalRoot : Bytes32
  Graffiti : Bytes32
  Tier : Nat
  Proof : List Nat
  deriving Repr, DecidableEq

/-- The collaborators builder.go calls, modelled as oracles:
`b.rpc.L2.BlockByHash`, `b.anchorTxValidator.ValidateAnchorTx`,
`b.anchorTxValidator.GetAndValidateAnchorTxReceipt`,
`proofProducer.DegreeToCircuitsIdx`, `b.rpc.GetStorageRoot`
(address, block id) and `b.rpc.TaikoL1.GetBlock`. -/
structure Env where
  blockByHash : Bytes32 → Except Err Block
  validateAnchorTx : Tx → Except Err Unit
  getAndValidateAnchorTxReceipt : Tx → Except Err Receipt
  degreeToCircuitsIdx : Nat → Except Err Nat
  getStorageRoot : Nat → Nat → Except Err Bytes32
  taikoL1GetBlock : Nat → Except Err L1BlockInfo

/-- Modelled from the spec: `encoding.TierSgxAndPseZkevmID`, the designated
dual-system (SGX + ZK) tier identifier, defined in the `bindings/encoding`
package which is not under src/; builder.go only compares tiers against it. -/
def TierSgxAndPseZkevmID : Nat := 300

/-- Modelled from the spec: `rpc.StringToBytes32` (package `pkg/rpc`, not
under src/), which copies the string's bytes into a zero-initialised 32-byte
array (zero-padded on the right and truncated at 32 bytes). -/
def StringToBytes32 (s : List Nat) : Bytes32 :=
  (s ++ List.replicate 32 0).take 32

/-- The `Builder` struct of builder.go; the `rpc` and `anchorTxValidator`
handles are modelled separately as the `Env` oracle record passed to each
method. -/
structure Builder where
  graffiti : Bytes32
  deriving Repr, DecidableEq

/-- Embedding of `NewBuilder`: fixes the graffiti at construction via
`rpc.StringToBytes32`. -/
def NewBuilder (graffiti : List Nat) : Builder :=
  { graffiti := StringToBytes32 graffiti }

/-- Embedding of `uint16ToBytes`: the 2-byte big-endian encoding written by
`binary.BigEndian.PutUint16` (byte 0 is `i >> 8`, byte 1 is `i & 0xff`). -/
def uint16ToBytes (i : Nat) : List Nat :=
  [i / 256 % 256, i % 256]

/-- The Go local `evidence := &encoding.BlockEvidence{...}` struct literal of
`ForSubmission`: the evidence record before the tier-specific proof encoding
step. -/
def baseSubmissionEvidence (b : Builder) (proofWithHeader : ProofWithHeader) : BlockEvidence :=
  { MetaHash := proofWithHeader.Opts.MetaHash
    ParentHash := proofWithHeader.Opts.ParentHash
    BlockHash := proofWithHeader.Opts.BlockHash
    SignalRoot := proofWithHeader.Opts.SignalRoot
    Graffiti := b.graffiti
    Tier := proofWithHeader.Tier
    Proof := proofWithHeader.Proof }

/-- Embedding of `Builder.ForSubmission`.  Each Go `return nil, err` is
`(none, some err)`, the final `return evidence, nil` is `(some evidence,
none)`; match order follows the source's statement order, and the Go local
variable `evidence` is named `baseSubmissionEvidence b proofWithHeader`. -/
def Builder.ForSubmission (b : Builder) (env : Env) (proofWithHeader : ProofWithHeader) :
    Option BlockEvidence × Option Err :=
  match env.blockByHash proofWithHeader.Header.HeaderHash with
  | .error err => (none, some (.wrap (.blockLookup proofWithHeader.Header.HeaderHash) err))
  | .ok block =>
    match block.Transactions with
    | [] => (none, some (.malformedBlock proofWithHeader.BlockID))
    | anchorTx :: _ =>
      match env.validateAnchorTx anchorTx with
      | .error err => (none, some (.wrap .invalidAnchor err))
      | .ok _ =>
        match env.getAndValidateAnchorTxReceipt anchorTx with
        | .error err => (none, some (.wrap .anchorReceipt err))
        | .ok _ =>
          if proofWithHeader.Tier = TierSgxAndPseZkevmID then
            match env.degreeToCircuitsIdx proofWithHeader.Degree with
            | .error err => (none, some err)
            | .ok circuitsIdx =>
              (some { baseSubmissionEvidence b proofWithHeader with
                      Proof := uint16ToBytes circuitsIdx ++
                        (baseSubmissionEvidence b proofWithHeader).Proof }, none)
          else
            (some (baseSubmissionEvidence b proofWithHeader), none)

/-- Embedding of `Builder.ForContest`.  The Go struct literal omits
`Graffiti`, leaving it at the `[32]byte` zero value, and sets `Proof` to the
empty slice.  The receiver is unused here because its `rpc` handle is
modelled by the `Env` oracles. -/
def Builder.ForContest (b : Builder) (env : Env) (header : Header)
    (l2SignalService : Nat) (event : TaikoL1ClientTransitionProved) :
    Option BlockEvidence × Option Err :=
  match env.getStorageRoot l2SignalService event.BlockId with
  | .error err => (none, some (.wrap .storageRoot err))
  | .ok signalRoot =>
    match env.taikoL1GetBlock event.BlockId with
    | .error err => (none, some err)
    | .ok blockInfo =>
      (some { MetaHash := blockInfo.MetaHash
              ParentHash := event.ParentHash
              BlockHash := header.HeaderHash
              SignalRoot := signalRoot
              Graffiti := zeroBytes32
              Tier := event.Tier
              Proof := [] }, none)

/-- Characterisation of a successful `ForSubmission` call: all validation
steps succeeded and the returned evidence is the base record, with the
circuit-index two-byte big-endian prefix on `Proof` exactly when the tier is
the dual-system tier. -/
theorem forSubmission_ok_spec (b : Builder) (env : Env) (p : ProofWithHeader)
    (ev : BlockEvidence) (h : b.ForSubmission env p = (some ev, none)) :
    (∃ block anchorTx rest, env.blockByHash p.Header.HeaderHash = .ok block ∧
        block.Transactions = anchorTx :: rest ∧
        env.validateAnchorTx anchorTx = .ok () ∧
        ∃ r, env.getAndValidateAnchorTxReceipt anchorTx = .ok r) ∧
    ((p.Tier = TierSgxAndPseZkevmID ∧
        ∃ circuitsIdx, env.degreeToCircuitsIdx p.Degree = .ok circuitsIdx ∧
          ev = { baseSubmissionEvidence b p with
                 Proof := uint16ToBytes circuitsIdx ++ p.Proof }) ∨
      (p.Tier ≠ TierSgxAndPseZkevmID ∧ ev = baseSubmissionEvidence b p)) := by
  unfold Builder.ForSubmission at h
  split at h
  · simp at h
  · rename_i block hblock
    split at h
    · simp at h
    · rename_i anchorTx rest htxs
      split at h
      · simp at h
      · rename_i u hanchor
        split at h
        · simp at h
        · rename_i r hreceipt
          refine ⟨⟨block, anchorTx, rest, hblock, htxs, ?_, r, hreceipt⟩, ?_⟩
          · cases u; exact hanchor
          · split at h
            · rename_i htier
              split at h
              · simp at h
              · rename_i circuitsIdx hidx
                refine .inl ⟨htier, circuitsIdx, hidx, ?_⟩
                simp only [Prod.mk.injEq, Option.some.injEq] at h
                exact h.1.symm
            · rename_i htier
              refine .inr ⟨htier, ?_⟩
              simp only [Prod.mk.injEq, Option.some.injEq] at h
              exact h.1.symm

/-- A `ForSubmission` call returns either evidence with a nil error or a nil
evidence with an error, mirroring the source's `return` statements. -/
theorem forSubmission_exclusive (b : Builder) (env : Env) (p : ProofWithHeader) :
    (∃ ev, b.ForSubmission env p = (some ev, none)) ∨
    (∃ e, b.ForSubmission env p = (none, some e)) := by
  unfold Builder.ForSubmission
  split
  · exact .inr ⟨_, rfl⟩
  · split
    · exact .inr ⟨_, rfl⟩
    · split
      · exact .inr ⟨_, rfl⟩
      · split
        · exact .inr ⟨_, rfl⟩
        · split
          · split
            · exact .inr ⟨_, rfl⟩
            · exact .inl ⟨_, rfl⟩
          · exact .inl ⟨_, rfl⟩

/-- A `ForContest` call returns either evidence with a nil error or a nil
evidence with an error, mirroring the source's `return` statements. -/
theorem forContest_exclusive (b : Builder) (env : Env) (header : Header)
    (l2SignalService : Nat) (event : TaikoL1ClientTransitionProved) :
    (∃ ev, b.ForContest env header l2SignalService event = (some ev, none)) ∨
    (∃ e, b.ForContest env header l2SignalService event = (none, some e)) := by
  unfold Builder.ForContest
  split
  · exact .inr ⟨_, rfl⟩
  · split
    · exact .inr ⟨_, rfl⟩
    · exact .inl ⟨_, rfl⟩

/-! Concrete fixtures used to evaluate the theorems on concrete inputs. -/

/-- A concrete oracle environment in which every lookup succeeds and degree
18 maps to circuit index 3; any other degree has no registered circuit. -/
def envOkW : Env :=
  { blockByHash := fun _ => .ok { Transactions := [9, 10] }
    validateAnchorTx := fun _ => .ok ()
    getAndValidateAnchorTxReceipt := fun _ => .ok 1
    degreeToCircuitsIdx := fun d => if d = 18 then .ok 3 else .error (.external 77)
    getStorageRoot := fun _ _ => .ok (List.replicate 32 7)
    taikoL1GetBlock := fun _ => .ok { MetaHash := List.replicate 32 8 } }

/-- A concrete options bundle with four distinct hash values. -/
def optsW : ProofRequestOptions :=
  { MetaHash := List.replicate 32 1
    ParentHash := List.replicate 32 2
    BlockHash := List.replicate 32 3
    SignalRoot := List.replicate 32 4 }

/-- A concrete header whose hash is the options bundle's block hash. -/
def headerW : Header :=
  { ParentHash := List.replicate 32 2, HeaderHash := List.replicate 32 3 }

/-- A concrete builder with graffiti string bytes "hi". -/
def builderW : Builder := NewBuilder [104, 105]

/-- A concrete submission input with a non-dual tier (SGX-only style). -/
def pSgxW : ProofWithHeader :=
  { BlockID := 5, Header := headerW, Proof := [170, 187], Degree := 18,
    Tier := 200, Opts := optsW }

/-- A concrete submission input with the dual-system tier. -/
def pZkW : ProofWithHeader :=
  { pSgxW with Tier := TierSgxAndPseZkevmID }

/-- The evidence produced for `pSgxW` under `envOkW`. -/
def evSgxW : BlockEvidence := baseSubmissionEvidence builderW pSgxW

/-- The evidence produced for `pZkW` under `envOkW`: proof field
`0x0003` followed by the raw bytes `0xAABB`. -/
def evZkW : BlockEvidence :=
  { baseSubmissionEvidence builderW pZkW with Proof := [0, 3, 170, 187] }

/-- A concrete transition-proved event. -/
def eventW : TaikoL1ClientTransitionProved :=
  { BlockId := 42, ParentHash := List.replicate 32 2, Tier := 2 }

/-- The evidence produced by `ForContest` for `eventW` under `envOkW`. -/
def evContestW : BlockEvidence :=
  { MetaHash := List.replicate 32 8
    ParentHash := List.replicate 32 2
    BlockHash := List.replicate 32 3
    SignalRoot := List.replicate 32 7
    Graffiti := zeroBytes32
    Tier := 2
    Proof := [] }

/-! The claim theorems. -/

/-- C1: for a submission input whose tier is the dual-system (SGX+ZK) tier,
the returned evidence's `Proof` is the 2-byte big-endian encoding of the
circuit index obtained from the degree-to-circuit mapping followed by the
raw proof bytes; for any other tier it is the raw proof bytes unmodified. -/
theorem forSubmission_proof_layout (b : Builder) (env : Env) (p : ProofWithHeader)
    (ev : BlockEvidence) (h : b.ForSubmission env p = (some ev, none)) :
    (p.Tier = TierSgxAndPseZkevmID →
      ∃ circuitsIdx, env.degreeToCircuitsIdx p.Degree = .ok circuitsIdx ∧
        ev.Proof = uint16ToBytes circuitsIdx ++ p.Proof) ∧
    (p.Tier ≠ TierSgxAndPseZkevmID → ev.Proof = p.Proof) := by
  obtain ⟨-, hcase⟩ := forSubmission_ok_spec b env p ev h
  constructor
  · intro htier
    rcases hcase with ⟨-, circuitsIdx, hidx, hev⟩ | ⟨hne, -⟩
    · exact ⟨circuitsIdx, hidx, by rw [hev]⟩
    · exact absurd htier hne
  · intro hne
    rcases hcase with ⟨htier, -⟩ | ⟨-, hev⟩
    · exact absurd htier hne
    · rw [hev]; rfl

/-- Witness for C1: the layout theorem evaluated at the concrete dual-tier
input `pZkW`, whose proof output is `0x0003AABB`. -/
theorem forSubmission_proof_layout_witness :
    (pZkW.Tier = TierSgxAndPseZkevmID →
      ∃ circuitsIdx, envOkW.degreeToCircuitsIdx pZkW.Degree = .ok circuitsIdx ∧
        evZkW.Proof = uint16ToBytes circuitsIdx ++ pZkW.Proof) ∧
    (pZkW.Tier ≠ TierSgxAndPseZkevmID → evZkW.Proof = pZkW.Proof) :=
  forSubmission_proof_layout builderW envOkW pZkW evZkW (by decide)

/-- C2: with the dual-system tier and a degree that the mapping rejects,
`ForSubmission` never returns evidence, and whenever the earlier lookup and
validation steps succeed it returns exactly the mapping's error. -/
theorem forSubmission_degree_error_aborts (b : Builder) (env : Env)
    (p : ProofWithHeader) (e : Err) (htier : p.Tier = TierSgxAndPseZkevmID)
    (hdeg : env.degreeToCircuitsIdx p.Degree = .error e) :
    (b.ForSubmission env p).1 = none ∧
    (∀ block anchorTx rest,
      env.blockByHash p.Header.HeaderHash = .ok block →
      block.Transactions = anchorTx :: rest →
      env.validateAnchorTx anchorTx = .ok () →
      (∃ r, env.getAndValidateAnchorTxReceipt anchorTx = .ok r) →
      b.ForSubmission env p = (none, some e)) := by
  constructor
  · rcases forSubmission_exclusive b env p with ⟨ev, hok⟩ | ⟨e', herr⟩
    · obtain ⟨-, hcase⟩ := forSubmission_ok_spec b env p ev hok
      rcases hcase with ⟨-, circuitsIdx, hidx, -⟩ | ⟨hne, -⟩
      · rw [hdeg] at hidx; exact absurd hidx (by simp)
      · exact absurd htier hne
    · rw [herr]
  · rintro block anchorTx rest hblock htxs hanchor ⟨r, hreceipt⟩
    simp [Builder.ForSubmission, hblock, htxs, hanchor, hreceipt, htier, hdeg]

/-- Witness for C2: the abort theorem evaluated at the dual-tier input with
degree 19, which `envOkW`'s mapping rejects with error code 77. -/
theorem forSubmission_degree_error_aborts_witness :
    (Builder.ForSubmission builderW envOkW { pZkW with Degree := 19 }).1 = none ∧
    (∀ block anchorTx rest,
      envOkW.blockByHash ({ pZkW with Degree := 19 } : ProofWithHeader).Header.HeaderHash = .ok block →
      block.Transactions = anchorTx :: rest →
      envOkW.validateAnchorTx anchorTx = .ok () →
      (∃ r, envOkW.getAndValidateAnchorTxReceipt anchorTx = .ok r) →
      Builder.ForSubmission builderW envOkW { pZkW with Degree := 19 } =
        (none, some (.external 77))) :=
  forSubmission_degree_error_aborts builderW envOkW { pZkW with Degree := 19 }
    (.external 77) (by decide) (by rfl)

/-- C3: for any retrievable block with an empty transaction list,
`ForSubmission` fails with the malformed-block error, whatever the tier,
proof bytes, degree and option hashes are. -/
theorem forSubmission_empty_block (b : Builder) (env : Env) (p : ProofWithHeader)
    (block : Block) (hblock : env.blockByHash p.Header.HeaderHash = .ok block)
    (htxs : block.Transactions = []) :
    b.ForSubmission env p = (none, some (.malformedBlock p.BlockID)) := by
  simp [Builder.ForSubmission, hblock, htxs]

/-- Witness for C3: the empty-block theorem evaluated under an environment
whose block lookup returns a transactionless block. -/
theorem forSubmission_empty_block_witness :
    Builder.ForSubmission builderW
      { envOkW with blockByHash := fun _ => .ok { Transactions := [] } } pSgxW =
      (none, some (.malformedBlock pSgxW.BlockID)) :=
  forSubmission_empty_block builderW
    { envOkW with blockByHash := fun _ => .ok { Transactions := [] } } pSgxW
    { Transactions := [] } (by rfl) (by rfl)

/-- C4: on every successful submission, the four hash fields of the returned
evidence equal the corresponding fields of the input options bundle. -/
theorem forSubmission_hashes_passthrough (b : Builder) (env : Env)
    (p : ProofWithHeader) (ev : BlockEvidence)
    (h : b.ForSubmission env p = (some ev, none)) :
    ev.MetaHash = p.Opts.MetaHash ∧ ev.ParentHash = p.Opts.ParentHash ∧
    ev.BlockHash = p.Opts.BlockHash ∧ ev.SignalRoot = p.Opts.SignalRoot := by
  obtain ⟨-, hcase⟩ := forSubmission_ok_spec b env p ev h
  rcases hcase with ⟨-, circuitsIdx, -, hev⟩ | ⟨-, hev⟩ <;> rw [hev] <;>
    exact ⟨rfl, rfl, rfl, rfl⟩

/-- Witness for C4: the hash pass-through theorem evaluated at the concrete
SGX-only submission input. -/
theorem forSubmission_hashes_passthrough_witness :
    evSgxW.MetaHash = pSgxW.Opts.MetaHash ∧
    evSgxW.ParentHash = pSgxW.Opts.ParentHash ∧
    evSgxW.BlockHash = pSgxW.Opts.BlockHash ∧
    evSgxW.SignalRoot = pSgxW.Opts.SignalRoot :=
  forSubmission_hashes_passthrough builderW envOkW pSgxW evSgxW (by decide)

/-- C5: every successful `ForContest` call returns evidence with an empty
`Proof` and the all-zero 32-byte `Graffiti`. -/
theorem forContest_proof_empty_graffiti_zero (b : Builder) (env : Env)
    (header : Header) (l2SignalService : Nat)
    (event : TaikoL1ClientTransitionProved) (ev : BlockEvidence)
    (h : b.ForContest env header l2SignalService event = (some ev, none)) :
    ev.Proof = [] ∧ ev.Graffiti = zeroBytes32 := by
  unfold Builder.ForContest at h
  split at h
  · simp at h
  · split at h
    · simp at h
    · simp only [Prod.mk.injEq, Option.some.injEq] at h
      rw [← h.1]
      exact ⟨rfl, rfl⟩

/-- Witness for C5: the contest theorem evaluated at the concrete event. -/
theorem forContest_proof_empty_graffiti_zero_witness :
    evContestW.Proof = [] ∧ evContestW.Graffiti = zeroBytes32 :=
  forContest_proof_empty_graffiti_zero builderW envOkW headerW 6 eventW
    evContestW (by decide)

/-- C6: the output tier is always the input's tier: `ForContest` copies both
`Tier` and `ParentHash` verbatim from the event, and `ForSubmission` copies
`Tier` from the proof result. -/
theorem tier_passthrough (b : Builder) (env : Env) (header : Header)
    (l2SignalService : Nat) (event : TaikoL1ClientTransitionProved)
    (p : ProofWithHeader) (ev ev' : BlockEvidence) :
    (b.ForContest env header l2SignalService event = (some ev, none) →
      ev.Tier = event.Tier ∧ ev.ParentHash = event.ParentHash) ∧
    (b.ForSubmission env p = (some ev', none) → ev'.Tier = p.Tier) := by
  constructor
  · intro h
    unfold Builder.ForContest at h
    split at h
    · simp at h
    · split at h
      · simp at h
      · simp only [Prod.mk.injEq, Option.some.injEq] at h
        rw [← h.1]
        exact ⟨rfl, rfl⟩
  · intro h
    obtain ⟨-, hcase⟩ := forSubmission_ok_spec b env p ev' h
    rcases hcase with ⟨-, circuitsIdx, -, hev⟩ | ⟨-, hev⟩ <;> rw [hev] <;> rfl

/-- Witness for C6: the tier pass-through theorem evaluated at the concrete
contest and submission inputs. -/
theorem tier_passthrough_witness :
    (evContestW.Tier = eventW.Tier ∧ evContestW.ParentHash = eventW.ParentHash) ∧
    evSgxW.Tier = pSgxW.Tier :=
  ⟨(tier_passthrough builderW envOkW headerW 6 eventW pSgxW evContestW evSgxW).1
      (by decide),
   (tier_passthrough builderW envOkW headerW 6 eventW pSgxW evContestW evSgxW).2
      (by decide)⟩

/-- C7: when both lookups succeed, `ForContest` returns exactly the evidence
whose `MetaHash` is the L1 metadata lookup's result at the event's block id,
whose `BlockHash` is the supplied header's hash, and whose `SignalRoot` is
the storage root returned by the signal-service query. -/
theorem forContest_characterisation (b : Builder) (env : Env) (header : Header)
    (l2SignalService : Nat) (event : TaikoL1ClientTransitionProved)
    (signalRoot : Bytes32) (blockInfo : L1BlockInfo)
    (hroot : env.getStorageRoot l2SignalService event.BlockId = .ok signalRoot)
    (hinfo : env.taikoL1GetBlock event.BlockId = .ok blockInfo) :
    b.ForContest env header l2SignalService event =
      (some { MetaHash := blockInfo.MetaHash
              ParentHash := event.ParentHash
              BlockHash := header.HeaderHash
              SignalRoot := signalRoot
              Graffiti := zeroBytes32
              Tier := event.Tier
              Proof := [] }, none) := by
  simp [Builder.ForContest, hroot, hinfo]

/-- Witness for C7: the contest characterisation evaluated at the concrete
event, with signal root `7…7` and metadata hash `8…8`. -/
theorem forContest_characterisation_witness :
    Builder.ForContest builderW envOkW headerW 6 eventW =
      (some { MetaHash := List.replicate 32 8
              ParentHash := eventW.ParentHash
              BlockHash := headerW.HeaderHash
              SignalRoot := List.replicate 32 7
              Graffiti := zeroBytes32
              Tier := eventW.Tier
              Proof := [] }, none) :=
  forContest_characterisation builderW envOkW headerW 6 eventW
    (List.replicate 32 7) { MetaHash := List.replicate 32 8 } (by rfl) (by rfl)

/-- C8: neither builder method ever returns evidence alongside an error: the
result of either call is a populated evidence with a nil error, or a nil
evidence with an error. -/
theorem no_partial_evidence (b : Builder) (env : Env) (p : ProofWithHeader)
    (header : Header) (l2SignalService : Nat)
    (event : TaikoL1ClientTransitionProved) :
    ((∃ ev, b.ForSubmission env p = (some ev, none)) ∨
      (∃ e, b.ForSubmission env p = (none, some e))) ∧
    ((∃ ev, b.ForContest env header l2SignalService event = (some ev, none)) ∨
      (∃ e, b.ForContest env header l2SignalService event = (none, some e))) :=
  ⟨forSubmission_exclusive b env p,
   forContest_exclusive b env header l2SignalService event⟩

/-- C9: the graffiti is fixed by `NewBuilder` as the 32-byte conversion of
the constructor's graffiti string, every successful submission emits exactly
this value, and consecutive calls on the same builder emit the same
graffiti. -/
theorem graffiti_fixed_at_construction (g : List Nat) (env1 env2 : Env)
    (p1 p2 : ProofWithHeader) (ev1 ev2 : BlockEvidence)
    (h1 : (NewBuilder g).ForSubmission env1 p1 = (some ev1, none))
    (h2 : (NewBuilder g).ForSubmission env2 p2 = (some ev2, none)) :
    ev1.Graffiti = StringToBytes32 g ∧ ev2.Graffiti = StringToBytes32 g ∧
    ev1.Graffiti = ev2.Graffiti := by
  have e1 : ev1.Graffiti = StringToBytes32 g := by
    obtain ⟨-, hcase⟩ := forSubmission_ok_spec (NewBuilder g) env1 p1 ev1 h1
    rcases hcase with ⟨-, circuitsIdx, -, hev⟩ | ⟨-, hev⟩ <;> rw [hev] <;> rfl
  have e2 : ev2.Graffiti = StringToBytes32 g := by
    obtain ⟨-, hcase⟩ := forSubmission_ok_spec (NewBuilder g) env2 p2 ev2 h2
    rcases hcase with ⟨-, circuitsIdx, -, hev⟩ | ⟨-, hev⟩ <;> rw [hev] <;> rfl
  exact ⟨e1, e2, e1.trans e2.symm⟩

/-- Witness for C9: two consecutive submissions (one SGX-only, one dual
tier) on the builder constructed with graffiti bytes "hi" both emit its
32-byte conversion. -/
theorem graffiti_fixed_at_construction_witness :
    evSgxW.Graffiti = StringToBytes32 [104, 105] ∧
    evZkW.Graffiti = StringToBytes32 [104, 105] ∧
    evSgxW.Graffiti = evZkW.Graffiti :=
  graffiti_fixed_at_construction [104, 105] envOkW envOkW pSgxW pZkW
    evSgxW evZkW (by decide) (by decide)

/-- C10: with any tier other than the dual-system tier, `ForSubmission` is
independent of the degree parameter and of the degree-to-circuit mapping
oracle itself: two calls differing only in these agree exactly, so no such
call can fail with the mapping's unsupported-degree error. -/
theorem forSubmission_degree_independent (b : Builder) (env : Env)
    (f1 f2 : Nat → Except Err Nat) (p : ProofWithHeader) (d1 d2 : Nat)
    (h : p.Tier ≠ TierSgxAndPseZkevmID) :
    b.ForSubmission { env with degreeToCircuitsIdx := f1 } { p with Degree := d1 } =
    b.ForSubmission { env with degreeToCircuitsIdx := f2 } { p with Degree := d2 } := by
  unfold Builder.ForSubmission
  cases hb : env.blockByHash p.Header.HeaderHash with
  | error e => simp [hb]
  | ok block =>
    cases htxs : block.Transactions with
    | nil => simp [hb, htxs]
    | cons anchorTx rest =>
      cases ha : env.validateAnchorTx anchorTx with
      | error e => simp [hb, htxs, ha]
      | ok u =>
        cases hr : env.getAndValidateAnchorTxReceipt anchorTx with
        | error e => simp [hb, htxs, ha, hr]
        | ok r => simp [hb, htxs, ha, hr, h, baseSubmissionEvidence]

/-- Witness for C10: the degree-independence theorem evaluated at the
SGX-only input, comparing degree 18 (mapped) against degree 19 (unmapped)
under two different mapping oracles. -/
theorem forSubmission_degree_independent_witness :
    Builder.ForSubmission builderW envOkW { pSgxW with Degree := 18 } =
    Builder.ForSubmission builderW
      { envOkW with degreeToCircuitsIdx := fun _ => .error (.external 99) }
      { pSgxW with Degree := 19 } := by
  have h := forSubmission_degree_independent builderW envOkW
    envOkW.degreeToCircuitsIdx (fun _ => .error (.external 99)) pSgxW 18 19
    (by decide)
  exact h

end Evidence
